import Mathlib

/-
Shallow embedding of the PrimeDrew vehicle-rental core (src/app.py).

Modelling conventions:
* Instants (datetime values) are integers counting seconds; a string input
  that must be parsed with strptime is embedded as `Option Int` — `none`
  models a string that fails to parse, `some t` a string parsing to instant t.
* Python float arithmetic on currency values is embedded over `Rat` with
  exact arithmetic; `round` is Python 3's round-half-to-even (`pyRound`).
  Every currency value the core persists is produced by `round` or by the
  deposit table, hence integral, so persisted money fields are `Int`.
* Database rows are records in lists; `Model.query.filter_by(...).first()`
  is `List.find?`; mutating the row returned by `.first()` is `updateFirst`.
* The per-session dict `session['temp_booking_data']` is an association list
  from session id to the stored quote; `session.pop` removes the key.
-/

namespace PrimeDrew

/-- Python 3 `round(x)`: round half to even (banker's rounding), embedded on
exact rationals. -/
def pyRound (q : ℚ) : ℤ :=
  let f := ⌊q⌋
  let r := q - (f : ℚ)
  if r < 1/2 then f
  else if 1/2 < r then f + 1
  else if f % 2 = 0 then f else f + 1

/-- Python 3 `round(x, 1)`: round to one decimal digit, half to even. -/
def pyRound1 (q : ℚ) : ℚ :=
  (pyRound (q * 10) : ℚ) / 10

/-- Booking.status column: 'Confirmed', 'Cancelled', 'Completed'. -/
inductive BStatus where
  | Confirmed
  | Cancelled
  | Completed
deriving DecidableEq, Repr, BEq

/-- Booking.refund_status column: 'NotApplicable', 'Pending', 'Processed'. -/
inductive RStatus where
  | NotApplicable
  | Pending
  | Processed
deriving DecidableEq, Repr, BEq

/-- Booking.deposit_refund_status column: 'Pending', 'Processed', 'Denied',
'NotApplicable'. -/
inductive DRStatus where
  | Pending
  | Processed
  | Denied
  | NotApplicable
deriving DecidableEq, Repr, BEq

instance : LawfulBEq BStatus where
  eq_of_beq {a b} h := by cases a <;> cases b <;> first | rfl | exact Bool.noConfusion h
  rfl {a} := by cases a <;> rfl

instance : LawfulBEq RStatus where
  eq_of_beq {a b} h := by cases a <;> cases b <;> first | rfl | exact Bool.noConfusion h
  rfl {a} := by cases a <;> rfl

instance : LawfulBEq DRStatus where
  eq_of_beq {a b} h := by cases a <;> cases b <;> first | rfl | exact Bool.noConfusion h
  rfl {a} := by cases a <;> rfl

/-- The columns of the Vehicle model that the core reads. -/
structure Vehicle where
  id : Nat
  host_id : Nat
  vehicle_id_code : String
  fuel : String
  base_price : ℚ
  rating : ℚ
  is_available : Bool
deriving DecidableEq, Repr

/-- The columns of the Booking model that the core reads or writes. -/
structure Booking where
  id : Nat
  user_id : Nat
  vehicle_id : Nat
  start_date : ℤ
  end_date : ℤ
  total_price : ℤ
  deposit_amount : ℤ
  deposit_refund_status : DRStatus
  status : BStatus
  booked_at : ℤ
  payment_id : String
  refund_status : RStatus
deriving DecidableEq, Repr

/-- The columns of the Review model that the core reads or writes. -/
structure Review where
  id : Nat
  booking_id : Nat
  user_id : Nat
  vehicle_id : Nat
  rating : ℚ
  comment : String
deriving DecidableEq, Repr

/-- The columns of the User model that the core reads. -/
structure User where
  id : Nat
  role : String
  commission_tier : ℤ
  is_approved_host : Bool
  is_active : Bool
deriving DecidableEq, Repr

/-- `calculate_deposit(subtotal, total_hours)` from src/app.py: dynamic
refundable deposit from the rental duration.  `subtotal` is the integral
output of `price_for_server`; `total_hours` may be fractional. -/
def calculate_deposit (subtotal : ℤ) (total_hours : ℚ) : ℤ :=
  if total_hours < 24 then 500
  else if 24 ≤ total_hours ∧ total_hours < 72 then 1500
  else if 72 ≤ total_hours then
    min (pyRound (((2000 : ℚ) + (subtotal : ℚ) * (1/10)) / 100) * 100) 5000
  else 500

/-- `price_for_server(base_price_per_hour, fuel_type, start, end)` from
src/app.py.  The two date strings are embedded as parse results (`none` both
for a missing/empty string and for a strptime failure; either returns 0). -/
def price_for_server (base_price_per_hour : ℚ) (fuel_type : String)
    (start_date end_date : Option ℤ) : ℤ :=
  match start_date, end_date with
  | some s, some e =>
    let total_hours : ℚ := ((e - s : ℤ) : ℚ) / 3600
    if total_hours ≤ 0 then 0
    else
      let billed_hours : ℚ :=
        if total_hours < 24 then (⌈total_hours⌉ : ℚ) else total_hours
      let subtotal := billed_hours * base_price_per_hour
      let subtotal :=
        if fuel_type = "Electric" then subtotal * (95/100)
        else if fuel_type = "Diesel" then subtotal * (105/100)
        else subtotal
      let subtotal :=
        if 48 ≤ total_hours ∧ total_hours < 96 then subtotal * (95/100)
        else if 96 ≤ total_hours then subtotal * (85/100)
        else subtotal
      pyRound subtotal
  | _, _ => 0

/-- The filter predicate of the overlap query inside `is_vehicle_available`:
vehicle match, status 'Confirmed', `start_date < end_dt`, `end_date > start_dt`. -/
def overlapsPred (vehicle_db_id : Nat) (start_dt end_dt : ℤ) (b : Booking) : Bool :=
  b.vehicle_id == vehicle_db_id && b.status == BStatus.Confirmed &&
    decide (b.start_date < end_dt) && decide (b.end_date > start_dt)

/-- `is_vehicle_available(vehicle_db_id, start, end)` from src/app.py: false
when either date fails to parse, otherwise true iff the half-open-overlap
query over Confirmed bookings finds nothing. -/
def is_vehicle_available (bookings : List Booking) (vehicle_db_id : Nat)
    (start_date end_date : Option ℤ) : Bool :=
  match start_date, end_date with
  | some start_dt, some end_dt =>
    (bookings.find? (overlapsPred vehicle_db_id start_dt end_dt)).isNone
  | _, _ => false

/-- `is_booking_reviewable(booking)` from src/app.py: Confirmed, ended in the
past, and no review exists yet for the booking.  `now` stands for
`datetime.utcnow()` and `reviews` for the Review table. -/
def is_booking_reviewable (reviews : List Review) (now : ℤ) (booking : Booking) : Bool :=
  if booking.status != BStatus.Confirmed then false
  else if decide (booking.end_date > now) then false
  else if (reviews.find? (fun r => r.booking_id == booking.id)).isSome then false
  else true

/-- `session['temp_booking_data']` as stored by `create_razorpay_order`:
vehicle code, the two date strings (kept as their parse results), the
expected total in rupees, and the expected deposit. -/
structure TempBookingData where
  vehicle_id_code : String
  start_date : Option ℤ
  end_date : Option ℤ
  expected_total : ℤ
  expected_deposit : ℤ
deriving DecidableEq, Repr

/-- The shared durable state the core reads and writes, together with the
per-session quote store (association list keyed by session id) and the
auto-increment counters for the two tables the core inserts into. -/
structure AppState where
  users : List User
  vehicles : List Vehicle
  bookings : List Booking
  reviews : List Review
  temp_quotes : List (Nat × TempBookingData)
  next_booking_id : Nat
  next_review_id : Nat
deriving DecidableEq, Repr

/-- `session.get('temp_booking_data')` for a given session. -/
def quoteLookup (qs : List (Nat × TempBookingData)) (sid : Nat) : Option TempBookingData :=
  (qs.find? (fun p => p.1 == sid)).map Prod.snd

/-- Removal of the key, as done by `session.pop('temp_booking_data', None)`. -/
def quotePop (qs : List (Nat × TempBookingData)) (sid : Nat) : List (Nat × TempBookingData) :=
  qs.filter (fun p => p.1 != sid)

/-- `session['temp_booking_data'] = ...`: set the quote for a session,
superseding any prior quote for that session. -/
def quoteSet (qs : List (Nat × TempBookingData)) (sid : Nat) (t : TempBookingData) :
    List (Nat × TempBookingData) :=
  (sid, t) :: quotePop qs sid

/-- Mutation of the single row returned by `query.filter_by(...).first()`:
apply `f` to the first element satisfying `p`, keep the rest. -/
def updateFirst {α : Type} (l : List α) (p : α → Bool) (f : α → α) : List α :=
  match l with
  | [] => []
  | x :: rest => if p x then f x :: rest else x :: updateFirst rest p f

/-- Outcomes of `create_razorpay_order` (HTTP codes 400/404/409/500/200). -/
inductive OrderResult where
  | missingDetails
  | vehicleNotFound
  | vehicleBooked
  | gatewayError
  | orderCreated (amount_in_paise : ℤ)
deriving DecidableEq, Repr

/-- `create_razorpay_order` from src/app.py (quote phase).  `sid` is the
caller's session, `user_id` its logged-in user.  The three request fields are
`Option`s whose `none` models a missing/falsy field; each date, when present,
carries its strptime parse result.  `gateway_ok` models whether the external
`order.create` call succeeds; note the quote is stored in the session before
that call is attempted. -/
def create_razorpay_order (st : AppState) (sid user_id : Nat)
    (vehicle_id_code : Option String)
    (start_date_str end_date_str : Option (Option ℤ))
    (gateway_ok : Bool) : AppState × OrderResult :=
  match vehicle_id_code, start_date_str, end_date_str with
  | some code, some sd, some ed =>
    match st.vehicles.find? (fun v => v.vehicle_id_code == code) with
    | none => (st, OrderResult.vehicleNotFound)
    | some vehicle =>
      if ¬ is_vehicle_available st.bookings vehicle.id sd ed then
        (st, OrderResult.vehicleBooked)
      else
        match sd, ed with
        | some s, some e =>
          let total_hours : ℚ := ((e - s : ℤ) : ℚ) / 3600
          let server_total_subtotal :=
            price_for_server vehicle.base_price vehicle.fuel (some s) (some e)
          let server_deposit := calculate_deposit server_total_subtotal total_hours
          let server_gst := pyRound ((server_total_subtotal : ℚ) * (18/100))
          let server_total_final := server_total_subtotal + server_gst + server_deposit
          let amount_in_paise := server_total_final * 100
          let temp : TempBookingData :=
            { vehicle_id_code := code, start_date := some s, end_date := some e,
              expected_total := server_total_final,
              expected_deposit := server_deposit }
          let st' := { st with temp_quotes := quoteSet st.temp_quotes sid temp }
          if gateway_ok then (st', OrderResult.orderCreated amount_in_paise)
          else (st', OrderResult.gatewayError)
        | _, _ =>
          -- unreachable: an unparseable date already made the availability
          -- check return false above
          (st, OrderResult.vehicleBooked)
  | _, _, _ => (st, OrderResult.missingDetails)

/-- The record returned by the gateway's `payment.fetch(payment_id)`. -/
structure PaymentRecord where
  order_id : String
  amount : ℤ
  status : String
deriving DecidableEq, Repr

/-- Outcomes of `confirm_booking` (HTTP codes 400/409/500/200). -/
inductive ConfirmResult where
  | sessionExpired
  | paymentDataMissing
  | verificationFailed
  | bookedByAnother
  | priceMismatch
  | saveFailed
  | confirmed (booking_id : Nat) (total : ℤ)
deriving DecidableEq, Repr

/-- `confirm_booking` from src/app.py (confirm phase).  `gateway` is the set
of payments the external `payment.fetch` can return (a fetch of an unknown id
raises, landing in the verification-failure branch).  `now` stands for
`datetime.utcnow()` used for the new row's `booked_at`.  The session quote is
popped before any check runs, mirroring `session.pop` on the first line. -/
def confirm_booking (st : AppState) (sid user_id : Nat)
    (payment_id razorpay_order_id : Option String)
    (gateway : List (String × PaymentRecord)) (now : ℤ) : AppState × ConfirmResult :=
  let temp := quoteLookup st.temp_quotes sid
  let st1 := { st with temp_quotes := quotePop st.temp_quotes sid }
  match temp with
  | none => (st1, ConfirmResult.sessionExpired)
  | some temp_data =>
    match payment_id, razorpay_order_id with
    | some pid, some oid =>
      match (gateway.find? (fun p => p.1 == pid)).map Prod.snd with
      | none => (st1, ConfirmResult.verificationFailed)
      | some payment_details =>
        let expected_amount_paise := temp_data.expected_total * 100
        if payment_details.order_id ≠ oid then (st1, ConfirmResult.verificationFailed)
        else if payment_details.amount ≠ expected_amount_paise ∨
            payment_details.status ≠ "captured" then
          (st1, ConfirmResult.verificationFailed)
        else
          match st1.vehicles.find? (fun v => v.vehicle_id_code == temp_data.vehicle_id_code) with
          | none => (st1, ConfirmResult.saveFailed)
          | some vehicle =>
            if ¬ is_vehicle_available st1.bookings vehicle.id
                temp_data.start_date temp_data.end_date then
              (st1, ConfirmResult.bookedByAnother)
            else
              match temp_data.start_date, temp_data.end_date with
              | some s, some e =>
                let total_hours : ℚ := ((e - s : ℤ) : ℚ) / 3600
                let server_total_subtotal :=
                  price_for_server vehicle.base_price vehicle.fuel (some s) (some e)
                let server_deposit := calculate_deposit server_total_subtotal total_hours
                let server_gst := pyRound ((server_total_subtotal : ℚ) * (18/100))
                let server_total := server_total_subtotal + server_gst + server_deposit
                if 1 < |server_total - temp_data.expected_total| then
                  (st1, ConfirmResult.priceMismatch)
                else
                  let new_booking : Booking :=
                    { id := st1.next_booking_id
                      user_id := user_id
                      vehicle_id := vehicle.id
                      start_date := s
                      end_date := e
                      total_price := server_total
                      deposit_amount := server_deposit
                      deposit_refund_status := DRStatus.Pending
                      status := BStatus.Confirmed
                      booked_at := now
                      payment_id := pid
                      refund_status := RStatus.NotApplicable }
                  ({ st1 with bookings := new_booking :: st1.bookings,
                              next_booking_id := st1.next_booking_id + 1 },
                   ConfirmResult.confirmed st1.next_booking_id server_total)
              | _, _ =>
                -- unreachable: the stored quote only ever holds parsed dates
                (st1, ConfirmResult.saveFailed)
    | _, _ => (st1, ConfirmResult.paymentDataMissing)

/-- The row filter `filter_by(id=booking_id, user_id=user_id)`. -/
def byIdAndUser (booking_id user_id : Nat) (b : Booking) : Bool :=
  b.id == booking_id && b.user_id == user_id

/-- The row filter `filter_by(id=booking_id)`. -/
def byId (booking_id : Nat) (b : Booking) : Bool :=
  b.id == booking_id

/-- The row mutation performed by `cancel_booking`: status → Cancelled,
refund_status → Pending, deposit_refund_status → NotApplicable; every other
column (in particular total_price and deposit_amount) is untouched. -/
def cancelRowUpdate (b : Booking) : Booking :=
  { b with status := BStatus.Cancelled,
           refund_status := RStatus.Pending,
           deposit_refund_status := DRStatus.NotApplicable }

/-- The row mutation performed by `process_refund_api`: refund_status →
Processed, nothing else. -/
def refundRowUpdate (b : Booking) : Booking :=
  { b with refund_status := RStatus.Processed }

/-- The row mutation performed by `process_deposit_refund_api`:
deposit_refund_status → Processed, nothing else. -/
def depositRowUpdate (b : Booking) : Booking :=
  { b with deposit_refund_status := DRStatus.Processed }

/-- Outcomes of `cancel_booking` (HTTP codes 404/400/200). -/
inductive CancelResult where
  | notFound
  | wrongStatus
  | cancelled (refund_amount cancellation_fee : ℤ)
deriving DecidableEq, Repr

/-- `cancel_booking(booking_id)` from src/app.py.  `now` stands for
`datetime.utcnow()`; the one-hour grace period is 3600 seconds. -/
def cancel_booking (st : AppState) (user_id booking_id : Nat) (now : ℤ) :
    AppState × CancelResult :=
  match st.bookings.find? (byIdAndUser booking_id user_id) with
  | none => (st, CancelResult.notFound)
  | some booking =>
    if booking.status = BStatus.Cancelled ∨ booking.status = BStatus.Completed then
      (st, CancelResult.wrongStatus)
    else
      let time_difference := now - booking.booked_at
      let cancellation_fee : ℤ :=
        if time_difference < 3600 then 0
        else pyRound ((booking.total_price : ℚ) * (1/10))
      let refund_amount : ℤ :=
        if time_difference < 3600 then booking.total_price
        else booking.total_price - cancellation_fee
      let bookings' := updateFirst st.bookings (byIdAndUser booking_id user_id) cancelRowUpdate
      ({ st with bookings := bookings' }, CancelResult.cancelled refund_amount cancellation_fee)

/-- Outcomes of the two admin refund endpoints (HTTP codes 404/400/200). -/
inductive RefundResult where
  | notFound
  | invalidState
  | processed
deriving DecidableEq, Repr

/-- `process_refund_api(booking_id)` from src/app.py: requires status
'Cancelled' and refund_status not 'Processed'; sets refund_status 'Processed'. -/
def process_refund_api (st : AppState) (booking_id : Nat) : AppState × RefundResult :=
  match st.bookings.find? (byId booking_id) with
  | none => (st, RefundResult.notFound)
  | some booking =>
    if booking.status ≠ BStatus.Cancelled ∨ booking.refund_status = RStatus.Processed then
      (st, RefundResult.invalidState)
    else
      let bookings' := updateFirst st.bookings (byId booking_id) refundRowUpdate
      ({ st with bookings := bookings' }, RefundResult.processed)

/-- `process_deposit_refund_api(booking_id)` from src/app.py: requires
deposit_refund_status 'Pending'; sets it to 'Processed'. -/
def process_deposit_refund_api (st : AppState) (booking_id : Nat) :
    AppState × RefundResult :=
  match st.bookings.find? (byId booking_id) with
  | none => (st, RefundResult.notFound)
  | some booking =>
    if booking.deposit_refund_status ≠ DRStatus.Pending then
      (st, RefundResult.invalidState)
    else
      let bookings' := updateFirst st.bookings (byId booking_id) depositRowUpdate
      ({ st with bookings := bookings' }, RefundResult.processed)

/-- Outcomes of `submit_review` (HTTP codes 400/403/200). -/
inductive ReviewResult where
  | missingData
  | notEligible
  | submitted
deriving DecidableEq, Repr

/-- `submit_review` from src/app.py.  Python's `not all([booking_id, rating])`
treats an absent field and a zero value alike, hence the extra zero checks.
On success the review row is inserted and the vehicle's rating is recomputed
as the mean over all its reviews, rounded to one decimal. -/
def submit_review (st : AppState) (user_id : Nat) (now : ℤ)
    (booking_id : Option Nat) (rating : Option ℚ) (comment : String) :
    AppState × ReviewResult :=
  match booking_id, rating with
  | some bid, some r =>
    if bid = 0 ∨ r = 0 then (st, ReviewResult.missingData)
    else
      match st.bookings.find? (fun b => b.id == bid && b.user_id == user_id) with
      | none => (st, ReviewResult.notEligible)
      | some booking =>
        if ¬ is_booking_reviewable st.reviews now booking then
          (st, ReviewResult.notEligible)
        else
          let new_review : Review :=
            { id := st.next_review_id
              booking_id := booking.id
              user_id := user_id
              vehicle_id := booking.vehicle_id
              rating := r
              comment := comment }
          let reviews' := new_review :: st.reviews
          match st.vehicles.find? (fun v => v.id == booking.vehicle_id) with
          | none =>
            ({ st with reviews := reviews', next_review_id := st.next_review_id + 1 },
             ReviewResult.submitted)
          | some vehicle =>
            let all_reviews := reviews'.filter (fun rv => rv.vehicle_id == vehicle.id)
            let new_avg_rating : ℚ :=
              if all_reviews.isEmpty then 4
              else (all_reviews.map Review.rating).sum / (all_reviews.length : ℚ)
            let vehicles' :=
              updateFirst st.vehicles (fun v => v.id == vehicle.id)
                (fun v => { v with rating := pyRound1 new_avg_rating })
            ({ st with reviews := reviews', vehicles := vehicles',
                       next_review_id := st.next_review_id + 1 },
             ReviewResult.submitted)
  | _, _ => (st, ReviewResult.missingData)

/-- `toggle_availability(vehicle_id)` from src/app.py: a host may flip a
vehicle's `is_available` flag, except that disabling is refused while a
Confirmed booking ends in the future. -/
def toggle_availability (st : AppState) (user_id vehicle_id : Nat) (now : ℤ) : AppState :=
  match st.vehicles.find? (fun v => v.id == vehicle_id && v.host_id == user_id) with
  | none => st
  | some vehicle =>
    if vehicle.is_available &&
        (st.bookings.find? (fun b =>
          b.vehicle_id == vehicle_id && b.status == BStatus.Confirmed &&
            decide (b.end_date > now))).isSome then
      st
    else
      let vehicles' :=
        updateFirst st.vehicles (fun v => v.id == vehicle_id && v.host_id == user_id)
          (fun v => { v with is_available := !v.is_available })
      { st with vehicles := vehicles' }

/-- One line of the `earnings_summary` built by `host_earnings_view`. -/
structure EarningsRow where
  booking_id : Nat
  total_booked_price : ℤ
  deposit_amount : ℤ
  host_earning : ℤ
  platform_commission : ℤ
deriving DecidableEq, Repr

/-- The `payout_rate` computed by `host_earnings_view`:
`(user.commission_tier / 100.0) if user and user.commission_tier else 0.70`. -/
def payout_rate_of (user : Option User) : ℚ :=
  match user with
  | some u => if u.commission_tier ≠ 0 then (u.commission_tier : ℚ) / 100 else 7/10
  | none => 7/10

/-- The Confirmed bookings on vehicles owned by a host, as selected by the
join in `host_earnings_view` (display ordering omitted). -/
def hostConfirmedBookings (st : AppState) (host_id : Nat) : List Booking :=
  st.bookings.filter (fun b =>
    (st.vehicles.find? (fun v => v.id == b.vehicle_id)).any (fun v => v.host_id == host_id) &&
      b.status == BStatus.Confirmed)

/-- The `earnings_summary` rows of `host_earnings_view`: commissionable base
is `total_price - deposit_amount`; `host_share = round(base * payout_rate)`;
`platform_commission = round(base - host_share)`.  The row's price and deposit
are the source's `round(...)` of the already-integral stored values. -/
def host_earnings_rows (st : AppState) (host_id : Nat) : List EarningsRow :=
  let payout_rate := payout_rate_of (st.users.find? (fun u => u.id == host_id))
  (hostConfirmedBookings st host_id).map (fun booking =>
    let commissionable_base : ℤ := booking.total_price - booking.deposit_amount
    let host_share := pyRound ((commissionable_base : ℚ) * payout_rate)
    let platform_commission := pyRound ((commissionable_base : ℚ) - (host_share : ℚ))
    { booking_id := booking.id
      total_booked_price := booking.total_price
      deposit_amount := booking.deposit_amount
      host_earning := host_share
      platform_commission := platform_commission })

/-- `total_lifetime_earnings` of `host_earnings_view`: the running sum of
`host_share`, passed to the template through `round(...)`. -/
def total_lifetime_earnings (st : AppState) (host_id : Nat) : ℤ :=
  pyRound ((((host_earnings_rows st host_id).map EarningsRow.host_earning).sum : ℚ))

/-- The `host_earnings` figure computed by `view_user_profile` (the admin
profile page): for a host it sums `(total_price - deposit_amount) * 0.80`
over the host's Confirmed bookings — a hard-coded 80% share that ignores the
host's commission_tier — and rounds once at the end; a missing user means
the page redirects and shows no figure. -/
def view_user_profile_host_earnings (st : AppState) (user_id : Nat) : ℤ :=
  match st.users.find? (fun u => u.id == user_id) with
  | none => 0
  | some u =>
    let host_earnings : ℚ :=
      if u.role = "host" then
        ((hostConfirmedBookings st user_id).map
          (fun b => ((b.total_price - b.deposit_amount : ℤ) : ℚ) * (80/100))).sum
      else 0
    pyRound host_earnings

/-- Two booking rows are compatible when, if they are on the same vehicle and
both Confirmed, their half-open [start, end) intervals do not overlap. -/
def bookingsCompatible (b1 b2 : Booking) : Prop :=
  b1.vehicle_id = b2.vehicle_id → b1.status = BStatus.Confirmed →
    b2.status = BStatus.Confirmed →
    ¬ (b1.start_date < b2.end_date ∧ b1.end_date > b2.start_date)

instance (b1 b2 : Booking) : Decidable (bookingsCompatible b1 b2) := by
  unfold bookingsCompatible
  infer_instance

/-- The spec's booking invariant: pairwise, Confirmed bookings on a common
vehicle have non-overlapping half-open intervals. -/
def BookingInvariant (st : AppState) : Prop :=
  st.bookings.Pairwise bookingsCompatible

instance (st : AppState) : Decidable (BookingInvariant st) := by
  unfold BookingInvariant
  infer_instance

/-- A fresh deployment: the booking and review tables are empty, no session
holds a quote; users and vehicles are whatever the surrounding CRUD layer
created. -/
def initState (users : List User) (vehicles : List Vehicle) : AppState :=
  { users := users, vehicles := vehicles, bookings := [], reviews := [],
    temp_quotes := [], next_booking_id := 1, next_review_id := 1 }

/-- One request handled by the core: quote creation, confirmation,
cancellation, the two admin refund actions, review submission, or the host's
availability toggle. -/
inductive Step : AppState → AppState → Prop where
  | createOrder (st : AppState) (sid uid : Nat) (code : Option String)
      (sd ed : Option (Option ℤ)) (g : Bool) :
      Step st (create_razorpay_order st sid uid code sd ed g).1
  | confirm (st : AppState) (sid uid : Nat) (pid oid : Option String)
      (gw : List (String × PaymentRecord)) (now : ℤ) :
      Step st (confirm_booking st sid uid pid oid gw now).1
  | cancel (st : AppState) (uid bid : Nat) (now : ℤ) :
      Step st (cancel_booking st uid bid now).1
  | refund (st : AppState) (bid : Nat) :
      Step st (process_refund_api st bid).1
  | depositRefund (st : AppState) (bid : Nat) :
      Step st (process_deposit_refund_api st bid).1
  | review (st : AppState) (uid : Nat) (now : ℤ) (bid : Option Nat)
      (r : Option ℚ) (c : String) :
      Step st (submit_review st uid now bid r c).1
  | toggle (st : AppState) (uid vid : Nat) (now : ℤ) :
      Step st (toggle_availability st uid vid now)

/-- States reachable from a fresh deployment through core operations. -/
inductive Reachable : AppState → Prop where
  | init (users : List User) (vehicles : List Vehicle) :
      Reachable (initState users vehicles)
  | step {s s' : AppState} : Reachable s → Step s s' → Reachable s'

/-- A sample vehicle used to instantiate concrete states. -/
def vehP : Vehicle :=
  { id := 1, host_id := 2, vehicle_id_code := "VH1", fuel := "Petrol",
    base_price := 100, rating := 4, is_available := true }

/-- A sample customer used to instantiate concrete states. -/
def custU : User :=
  { id := 3, role := "customer", commission_tier := 70,
    is_approved_host := false, is_active := true }

/-- A sample Confirmed booking with total price 1000, booked at instant 0. -/
def bkC5 : Booking :=
  { id := 1, user_id := 3, vehicle_id := 1, start_date := 0, end_date := 10800,
    total_price := 1000, deposit_amount := 500,
    deposit_refund_status := DRStatus.Pending, status := BStatus.Confirmed,
    booked_at := 0, payment_id := "pay5", refund_status := RStatus.NotApplicable }

/-- A state holding just that booking. -/
def stC5 : AppState :=
  { users := [custU], vehicles := [vehP], bookings := [bkC5], reviews := [],
    temp_quotes := [], next_booking_id := 2, next_review_id := 1 }

/-- The deposit the server computes for a vehicle and a parsed interval, as
recomputed inside both workflow phases. -/
def server_deposit_for (v : Vehicle) (s e : ℤ) : ℤ :=
  calculate_deposit (price_for_server v.base_price v.fuel (some s) (some e))
    (((e - s : ℤ) : ℚ) / 3600)

/-- The grand total (subtotal + 18% GST + deposit) the server computes for a
vehicle and a parsed interval, as recomputed inside both workflow phases. -/
def server_total_for (v : Vehicle) (s e : ℤ) : ℤ :=
  let subtotal := price_for_server v.base_price v.fuel (some s) (some e)
  subtotal + pyRound ((subtotal : ℚ) * (18/100)) + server_deposit_for v s e

/-- The Booking row `confirm_booking` persists on success. -/
def confirmedBooking (st : AppState) (user_id : Nat) (v : Vehicle) (s e now : ℤ)
    (pid : String) : Booking :=
  { id := st.next_booking_id, user_id := user_id, vehicle_id := v.id,
    start_date := s, end_date := e,
    total_price := server_total_for v s e, deposit_amount := server_deposit_for v s e,
    deposit_refund_status := DRStatus.Pending, status := BStatus.Confirmed,
    booked_at := now, payment_id := pid, refund_status := RStatus.NotApplicable }

/-- The quote `create_razorpay_order` stores in the session on success. -/
def quotedTemp (code : String) (v : Vehicle) (s e : ℤ) : TempBookingData :=
  { vehicle_id_code := code, start_date := some s, end_date := some e,
    expected_total := server_total_for v s e,
    expected_deposit := server_deposit_for v s e }

/-- A sample Cancelled booking awaiting both refunds. -/
def bkC8 : Booking :=
  { id := 1, user_id := 3, vehicle_id := 1, start_date := 0, end_date := 10800,
    total_price := 1000, deposit_amount := 500,
    deposit_refund_status := DRStatus.Pending, status := BStatus.Cancelled,
    booked_at := 0, payment_id := "pay8", refund_status := RStatus.Pending }

/-- A state holding just that cancelled booking. -/
def stC8 : AppState :=
  { users := [custU], vehicles := [vehP], bookings := [bkC8], reviews := [],
    temp_quotes := [], next_booking_id := 2, next_review_id := 1 }

/-- A server-computed quote for the sample vehicle over a 3-hour interval. -/
def tdQ : TempBookingData := quotedTemp "VH1" vehP 0 10800

/-- A state in which session 5 holds that quote. -/
def stQ : AppState :=
  { users := [custU], vehicles := [vehP], bookings := [], reviews := [],
    temp_quotes := [(5, tdQ)], next_booking_id := 1, next_review_id := 1 }

/-- A captured gateway payment matching that quote (854 rupees in paise). -/
def prQ : PaymentRecord := { order_id := "ord1", amount := 85400, status := "captured" }

/-- The gateway's payment table holding that payment. -/
def gwQ : List (String × PaymentRecord) := [("pay1", prQ)]

/-- A vehicle flagged unavailable by its host. -/
def vehU : Vehicle :=
  { id := 1, host_id := 2, vehicle_id_code := "VU9", fuel := "Petrol",
    base_price := 100, rating := 4, is_available := false }

/-- A fresh deployment whose only vehicle is flagged unavailable. -/
def stU : AppState := initState [custU] [vehU]

/-- The state after the quote phase ran against the unavailable vehicle. -/
def stU2 : AppState :=
  (create_razorpay_order stU 5 3 (some "VU9") (some (some 0)) (some (some 10800)) true).1

/-- A captured gateway payment matching that quote. -/
def prU : PaymentRecord := { order_id := "ordU", amount := 85400, status := "captured" }

/-- The gateway's payment table holding that payment. -/
def gwU : List (String × PaymentRecord) := [("payU", prU)]

/-- A sample approved host on the 70% tier. -/
def hostH : User :=
  { id := 2, role := "host", commission_tier := 70,
    is_approved_host := true, is_active := true }

/-- A state where host 2 owns the sample vehicle with one Confirmed booking. -/
def stC6 : AppState :=
  { users := [hostH, custU], vehicles := [vehP], bookings := [bkC5], reviews := [],
    temp_quotes := [], next_booking_id := 2, next_review_id := 1 }



/-- Rounding an integer is the identity. -/
theorem pyRound_intCast (n : ℤ) : pyRound (n : ℚ) = n := by
  simp [pyRound]

/-- Membership in an `updateFirst` result comes from the original list,
either untouched or through `f`. -/
theorem mem_updateFirst {α : Type} {l : List α} {p : α → Bool} {f : α → α} {x : α}
    (hx : x ∈ updateFirst l p f) : x ∈ l ∨ ∃ y ∈ l, x = f y := by
  induction l with
  | nil => simp [updateFirst] at hx
  | cons a rest ih =>
    by_cases hp : p a
    · simp only [updateFirst, hp, if_pos] at hx
      rcases List.mem_cons.mp hx with h | h
      · exact Or.inr ⟨a, List.mem_cons_self a rest, h⟩
      · exact Or.inl (List.mem_cons_of_mem a h)
    · simp only [updateFirst, hp, if_neg, Bool.false_eq_true, not_false_iff] at hx
      rcases List.mem_cons.mp hx with h | h
      · exact Or.inl (h ▸ List.mem_cons_self a rest)
      · rcases ih h with h' | ⟨y, hy, hxy⟩
        · exact Or.inl (List.mem_cons_of_mem a h')
        · exact Or.inr ⟨y, List.mem_cons_of_mem a hy, hxy⟩

/-- A pairwise relation survives `updateFirst` when `f` preserves it on both
sides. -/
theorem pairwise_updateFirst {α : Type} {R : α → α → Prop} {l : List α}
    {p : α → Bool} {f : α → α}
    (hL : ∀ a b, R a b → R (f a) b) (hR : ∀ a b, R a b → R a (f b))
    (h : l.Pairwise R) : (updateFirst l p f).Pairwise R := by
  induction l with
  | nil => exact List.Pairwise.nil
  | cons a rest ih =>
    rcases List.pairwise_cons.mp h with ⟨ha, hrest⟩
    by_cases hp : p a
    · simp only [updateFirst, hp, if_pos]
      exact List.pairwise_cons.mpr ⟨fun b hb => hL a b (ha b hb), hrest⟩
    · simp only [updateFirst, hp, if_neg, Bool.false_eq_true, not_false_iff]
      refine List.pairwise_cons.mpr ⟨fun b hb => ?_, ih hrest⟩
      rcases mem_updateFirst hb with h' | ⟨y, hy, hby⟩
      · exact ha b h'
      · exact hby ▸ hR a y (ha y hy)

/-- `updateFirst` keeps `find?` aligned when `f` does not change whether the
predicate holds. -/
theorem find?_updateFirst {α : Type} (l : List α) (p : α → Bool) (f : α → α)
    (hf : ∀ x, p (f x) = p x) :
    (updateFirst l p f).find? p = (l.find? p).map f := by
  induction l with
  | nil => simp [updateFirst]
  | cons a rest ih =>
    by_cases hp : p a
    · simp [updateFirst, hp, List.find?_cons, hf]
    · simp [updateFirst, hp, List.find?_cons, ih]

/-- Popping a session's quote really removes it. -/
theorem quoteLookup_quotePop (qs : List (Nat × TempBookingData)) (sid : Nat) :
    quoteLookup (quotePop qs sid) sid = none := by
  induction qs with
  | nil => simp [quoteLookup, quotePop]
  | cons q rest ih =>
    by_cases h : q.1 = sid
    · have hq : quotePop (q :: rest) sid = quotePop rest sid := by
        simp [quotePop, List.filter_cons, h]
      rw [hq]
      exact ih
    · simp only [quoteLookup, quotePop, List.filter_cons] at ih ⊢
      simp [h, ih]

/-- The quote phase never touches the booking table. -/
theorem create_razorpay_order_bookings (st : AppState) (sid uid : Nat)
    (c : Option String) (sd ed : Option (Option ℤ)) (g : Bool) :
    (create_razorpay_order st sid uid c sd ed g).1.bookings = st.bookings := by
  unfold create_razorpay_order
  (repeat' split) <;> rfl

/-- Review submission never touches the booking table. -/
theorem submit_review_bookings (st : AppState) (uid : Nat) (now : ℤ)
    (bid : Option Nat) (r : Option ℚ) (c : String) :
    (submit_review st uid now bid r c).1.bookings = st.bookings := by
  unfold submit_review
  (repeat' split) <;> rfl

/-- The availability toggle never touches the booking table. -/
theorem toggle_availability_bookings (st : AppState) (uid vid : Nat) (now : ℤ) :
    (toggle_availability st uid vid now).bookings = st.bookings := by
  unfold toggle_availability
  (repeat' split) <;> rfl

/-- Consing a booking whose interval passed `is_vehicle_available` keeps the
pairwise overlap invariant. -/
theorem pairwise_cons_of_available (bookings : List Booking) (vid : Nat) (s e : ℤ)
    (nb : Booking) (hv : nb.vehicle_id = vid) (hs : nb.start_date = s) (he : nb.end_date = e)
    (havail : is_vehicle_available bookings vid (some s) (some e) = true)
    (h : bookings.Pairwise bookingsCompatible) :
    (nb :: bookings).Pairwise bookingsCompatible := by
  refine List.pairwise_cons.mpr ⟨fun b hb => ?_, h⟩
  intro hveq hnbst hbst hover
  have hnone : bookings.find? (overlapsPred vid s e) = none := by
    simp only [is_vehicle_available, Option.isNone_iff_eq_none] at havail
    exact havail
  have hb' := List.find?_eq_none.mp hnone b hb
  apply hb'
  have h1 : b.vehicle_id = vid := by rw [← hveq, hv]
  rw [hs, he] at hover
  have h3 : b.start_date < e := hover.2
  have h4 : b.end_date > s := hover.1
  simp [overlapsPred, h1, hbst, h3, h4]

/-- Confirmation preserves the overlap invariant: it either leaves the
booking table alone or inserts a row that just re-passed the availability
re-check against the current table. -/
theorem confirm_booking_preserves (st : AppState) (sid uid : Nat)
    (pid oid : Option String) (gw : List (String × PaymentRecord)) (now : ℤ)
    (h : BookingInvariant st) :
    BookingInvariant (confirm_booking st sid uid pid oid gw now).1 := by
  unfold confirm_booking BookingInvariant
  dsimp only
  (repeat' split) <;> try exact h
  rename_i x vehicle hfind havail sd ed s e heqs heqe hprice
  dsimp only
  have havail' : is_vehicle_available st.bookings vehicle.id (some s) (some e) = true := by
    rw [← heqs, ← heqe]
    exact not_not.mp havail
  exact pairwise_cons_of_available st.bookings vehicle.id s e _ rfl rfl rfl havail' h

/-- Cancellation preserves the overlap invariant: it can only move a row's
status away from Confirmed. -/
theorem cancel_booking_preserves (st : AppState) (uid bid : Nat) (now : ℤ)
    (h : BookingInvariant st) :
    BookingInvariant (cancel_booking st uid bid now).1 := by
  unfold cancel_booking BookingInvariant
  dsimp only
  (repeat' split) <;> try exact h
  all_goals apply pairwise_updateFirst _ _ h
  all_goals intro a b hab hveq hst1 hst2
  all_goals first
    | simp [cancelRowUpdate] at hst1
    | simp [cancelRowUpdate] at hst2

/-- Refund processing preserves the overlap invariant: it only touches
`refund_status`. -/
theorem process_refund_api_preserves (st : AppState) (bid : Nat)
    (h : BookingInvariant st) :
    BookingInvariant (process_refund_api st bid).1 := by
  unfold process_refund_api BookingInvariant
  dsimp only
  (repeat' split) <;> try exact h
  exact pairwise_updateFirst (fun a b hab => hab) (fun a b hab => hab) h

/-- Deposit-refund processing preserves the overlap invariant: it only
touches `deposit_refund_status`. -/
theorem process_deposit_refund_api_preserves (st : AppState) (bid : Nat)
    (h : BookingInvariant st) :
    BookingInvariant (process_deposit_refund_api st bid).1 := by
  unfold process_deposit_refund_api BookingInvariant
  dsimp only
  (repeat' split) <;> try exact h
  exact pairwise_updateFirst (fun a b hab => hab) (fun a b hab => hab) h

/-- Every single core operation preserves the booking overlap invariant. -/
theorem step_preserves_invariant {s s' : AppState} (hs : Step s s')
    (h : BookingInvariant s) : BookingInvariant s' := by
  cases hs with
  | createOrder sid uid code sd ed g =>
    unfold BookingInvariant
    rw [create_razorpay_order_bookings]
    exact h
  | confirm sid uid pid oid gw now =>
    exact confirm_booking_preserves s sid uid pid oid gw now h
  | cancel uid bid now =>
    exact cancel_booking_preserves s uid bid now h
  | refund bid =>
    exact process_refund_api_preserves s bid h
  | depositRefund bid =>
    exact process_deposit_refund_api_preserves s bid h
  | review uid now bid r c =>
    unfold BookingInvariant
    rw [submit_review_bookings]
    exact h
  | toggle uid vid now =>
    unfold BookingInvariant
    rw [toggle_availability_bookings]
    exact h

/-- Claim C1: in every state reachable by the operations of the core, any two
distinct Confirmed bookings on the same vehicle have non-overlapping
half-open [start, end) intervals; confirm_booking, the only operation that
creates a Confirmed booking, inserts only after is_vehicle_available reports
no overlapping Confirmed booking. -/
theorem confirmed_bookings_never_overlap {st : AppState} (h : Reachable st) :
    BookingInvariant st := by
  induction h with
  | init users vehicles => exact List.Pairwise.nil
  | step hr hstep ih => exact step_preserves_invariant hstep ih

/-- Witness for claim C1: the invariant theorem applied at a concrete
reachable state. -/
theorem confirmed_bookings_never_overlap_witness :
    Reachable (initState [custU] [vehP]) ∧ BookingInvariant (initState [custU] [vehP]) :=
  ⟨Reachable.init [custU] [vehP],
   confirmed_bookings_never_overlap (Reachable.init [custU] [vehP])⟩

/-- Claim C2 evaluation: at base price 100 per hour, Electric fuel and an
interval of exactly 50 hours (180000 seconds), the pricing engine returns
subtotal 4512 — Python rounds the product 4512.5 half-to-even — and not the
4513 of the claim; the deposit for that subtotal and duration is the flat
1500 of the [24, 72) tier, as the claim states. -/
theorem scenario_b_subtotal_and_deposit :
    price_for_server 100 "Electric" (some 0) (some 180000) = 4512 ∧
    price_for_server 100 "Electric" (some 0) (some 180000) ≠ 4513 ∧
    calculate_deposit (price_for_server 100 "Electric" (some 0) (some 180000)) 50 = 1500 := by
  have h1 : price_for_server 100 "Electric" (some 0) (some 180000) = 4512 := by
    simp only [price_for_server]
    norm_num [pyRound]
  refine ⟨h1, by rw [h1]; decide, ?_⟩
  rw [h1]
  norm_num [calculate_deposit]

/-- Claim C7: the availability check returns false whenever either bound
fails to parse; on parsed bounds it returns true exactly when no Confirmed
booking of the vehicle satisfies existing.start < end and existing.end >
start, so intervals that merely touch do not block. -/
theorem is_vehicle_available_spec (bookings : List Booking) (vid : Nat) :
    (∀ e, is_vehicle_available bookings vid none e = false) ∧
    (∀ s, is_vehicle_available bookings vid s none = false) ∧
    (∀ s e, is_vehicle_available bookings vid (some s) (some e) = true ↔
      ¬ ∃ b ∈ bookings, b.vehicle_id = vid ∧ b.status = BStatus.Confirmed ∧
        b.start_date < e ∧ b.end_date > s) := by
  refine ⟨fun e => rfl, fun s => ?_, fun s e => ?_⟩
  · cases s <;> rfl
  · simp only [is_vehicle_available, Option.isNone_iff_eq_none, List.find?_eq_none,
      overlapsPred, Bool.and_eq_true, beq_iff_eq, decide_eq_true_eq]
    constructor
    · rintro h ⟨b, hb, h1, h2, h3, h4⟩
      exact h b hb ⟨⟨⟨h1, h2⟩, h3⟩, h4⟩
    · intro h b hb hpred
      exact h ⟨b, hb, hpred.1.1.1, hpred.1.1.2, hpred.1.2, hpred.2⟩

/-- Witness for claim C7: with a Confirmed booking on [0, 10800), a
back-to-back interval starting exactly at 10800 is reported available (via
the theorem's characterization), while an overlapping one is not. -/
theorem is_vehicle_available_spec_witness :
    is_vehicle_available [bkC5] 1 (some 10800) (some 14400) = true ∧
    is_vehicle_available [bkC5] 1 none (some 14400) = false :=
  ⟨((is_vehicle_available_spec [bkC5] 1).2.2 10800 14400).mpr (by decide),
   (is_vehicle_available_spec [bkC5] 1).1 (some 14400)⟩

/-- Claim C5: cancelling a Confirmed booking succeeds; within the first hour
the fee is 0 and the refund the full total, afterwards the fee is
round(10% of total_price) and the refund the remainder; the only effects are
status → Cancelled, refund_status → Pending, deposit_refund_status →
NotApplicable (price fields untouched, see `cancelRowUpdate`); cancelling a
Cancelled or Completed booking is rejected with no state change. -/
theorem cancel_booking_spec (st : AppState) (uid bid : Nat) (now : ℤ) (b : Booking)
    (hfind : st.bookings.find? (byIdAndUser bid uid) = some b) :
    (b.status = BStatus.Confirmed →
      (cancel_booking st uid bid now).2 =
        CancelResult.cancelled
          (if now - b.booked_at < 3600 then b.total_price
           else b.total_price - pyRound ((b.total_price : ℚ) * (1/10)))
          (if now - b.booked_at < 3600 then 0
           else pyRound ((b.total_price : ℚ) * (1/10))) ∧
      (cancel_booking st uid bid now).1 =
        { st with bookings := updateFirst st.bookings (byIdAndUser bid uid) cancelRowUpdate }) ∧
    ((b.status = BStatus.Cancelled ∨ b.status = BStatus.Completed) →
      (cancel_booking st uid bid now).2 = CancelResult.wrongStatus ∧
      (cancel_booking st uid bid now).1 = st) := by
  unfold cancel_booking
  rw [hfind]
  dsimp only
  constructor
  · intro hc
    have hns : ¬(b.status = BStatus.Cancelled ∨ b.status = BStatus.Completed) := by
      rw [hc]
      rintro (h | h) <;> exact BStatus.noConfusion h
    rw [if_neg hns]
    by_cases ht : now - b.booked_at < 3600
    · rw [if_pos ht, if_pos ht, if_pos ht]
      exact ⟨rfl, rfl⟩
    · rw [if_neg ht, if_neg ht, if_neg ht]
      exact ⟨rfl, rfl⟩
  · intro hcc
    rw [if_pos hcc]
    exact ⟨rfl, rfl⟩

/-- Witness for claim C5, the spec's Scenario D: cancelling two hours after
booking with total price 1000 yields fee 100 and refund 900. -/
theorem cancel_booking_spec_witness :
    bkC5.status = BStatus.Confirmed ∧
    (cancel_booking stC5 3 1 7200).2 = CancelResult.cancelled 900 100 := by
  have h := cancel_booking_spec stC5 3 1 7200 bkC5 rfl
  have h2 := (h.1 rfl).1
  refine ⟨rfl, ?_⟩
  rw [h2]
  norm_num [pyRound, bkC5]

/-- Evaluation of `process_refund_api` once the row is found. -/
theorem process_refund_api_eval (st : AppState) (bid : Nat) (b : Booking)
    (hfind : st.bookings.find? (byId bid) = some b) :
    process_refund_api st bid =
      if b.status ≠ BStatus.Cancelled ∨ b.refund_status = RStatus.Processed then
        (st, RefundResult.invalidState)
      else
        ({ st with bookings := updateFirst st.bookings (byId bid) refundRowUpdate },
         RefundResult.processed) := by
  unfold process_refund_api
  rw [hfind]

/-- Evaluation of `process_deposit_refund_api` once the row is found. -/
theorem process_deposit_refund_api_eval (st : AppState) (bid : Nat) (b : Booking)
    (hfind : st.bookings.find? (byId bid) = some b) :
    process_deposit_refund_api st bid =
      if b.deposit_refund_status ≠ DRStatus.Pending then
        (st, RefundResult.invalidState)
      else
        ({ st with bookings := updateFirst st.bookings (byId bid) depositRowUpdate },
         RefundResult.processed) := by
  unfold process_deposit_refund_api
  rw [hfind]

/-- Claim C8: refund processing succeeds exactly on a Cancelled booking whose
refund is not yet Processed and only sets refund_status; deposit-refund
processing succeeds exactly when deposit_refund_status is Pending and only
sets it to Processed; a second call of either after a success is rejected
with no state change. -/
theorem refund_processing_spec (st : AppState) (bid : Nat) (b : Booking)
    (hfind : st.bookings.find? (byId bid) = some b) :
    ((process_refund_api st bid).2 = RefundResult.processed ↔
      b.status = BStatus.Cancelled ∧ b.refund_status ≠ RStatus.Processed) ∧
    (b.status = BStatus.Cancelled ∧ b.refund_status ≠ RStatus.Processed →
      (process_refund_api st bid).1 =
        { st with bookings := updateFirst st.bookings (byId bid) refundRowUpdate } ∧
      (process_refund_api (process_refund_api st bid).1 bid).2 = RefundResult.invalidState ∧
      (process_refund_api (process_refund_api st bid).1 bid).1 = (process_refund_api st bid).1) ∧
    (¬(b.status = BStatus.Cancelled ∧ b.refund_status ≠ RStatus.Processed) →
      (process_refund_api st bid).1 = st) ∧
    ((process_deposit_refund_api st bid).2 = RefundResult.processed ↔
      b.deposit_refund_status = DRStatus.Pending) ∧
    (b.deposit_refund_status = DRStatus.Pending →
      (process_deposit_refund_api st bid).1 =
        { st with bookings := updateFirst st.bookings (byId bid) depositRowUpdate } ∧
      (process_deposit_refund_api (process_deposit_refund_api st bid).1 bid).2 =
        RefundResult.invalidState ∧
      (process_deposit_refund_api (process_deposit_refund_api st bid).1 bid).1 =
        (process_deposit_refund_api st bid).1) ∧
    (b.deposit_refund_status ≠ DRStatus.Pending →
      (process_deposit_refund_api st bid).1 = st) := by
  have hr := process_refund_api_eval st bid b hfind
  have hd := process_deposit_refund_api_eval st bid b hfind
  have hfind2 : (updateFirst st.bookings (byId bid) refundRowUpdate).find? (byId bid) =
      some (refundRowUpdate b) := by
    rw [find?_updateFirst st.bookings (byId bid) refundRowUpdate (fun x => rfl), hfind]
    rfl
  have hfind3 : (updateFirst st.bookings (byId bid) depositRowUpdate).find? (byId bid) =
      some (depositRowUpdate b) := by
    rw [find?_updateFirst st.bookings (byId bid) depositRowUpdate (fun x => rfl), hfind]
    rfl
  refine ⟨?_, ?_, ?_, ?_, ?_, ?_⟩
  · by_cases h : b.status = BStatus.Cancelled ∧ b.refund_status ≠ RStatus.Processed
    · have h' : ¬(b.status ≠ BStatus.Cancelled ∨ b.refund_status = RStatus.Processed) := by
        tauto
      rw [hr, if_neg h']
      simp [h]
    · have h' : b.status ≠ BStatus.Cancelled ∨ b.refund_status = RStatus.Processed := by
        tauto
      rw [hr, if_pos h']
      simp [h]
  · intro h
    have h' : ¬(b.status ≠ BStatus.Cancelled ∨ b.refund_status = RStatus.Processed) := by
      tauto
    have hstate : (process_refund_api st bid).1 =
        { st with bookings := updateFirst st.bookings (byId bid) refundRowUpdate } := by
      rw [hr, if_neg h']
    have hsecond := process_refund_api_eval (process_refund_api st bid).1 bid (refundRowUpdate b)
      (by rw [hstate]; exact hfind2)
    have hcond : (refundRowUpdate b).status ≠ BStatus.Cancelled ∨
        (refundRowUpdate b).refund_status = RStatus.Processed := Or.inr rfl
    rw [hsecond, if_pos hcond]
    exact ⟨hstate, rfl, rfl⟩
  · intro h
    have h' : b.status ≠ BStatus.Cancelled ∨ b.refund_status = RStatus.Processed := by
      tauto
    rw [hr, if_pos h']
  · by_cases h : b.deposit_refund_status = DRStatus.Pending
    · have h' : ¬b.deposit_refund_status ≠ DRStatus.Pending := not_not.mpr h
      rw [hd, if_neg h']
      simp [h]
    · rw [hd, if_pos h]
      simp [h]
  · intro h
    have h' : ¬b.deposit_refund_status ≠ DRStatus.Pending := not_not.mpr h
    have hstate : (process_deposit_refund_api st bid).1 =
        { st with bookings := updateFirst st.bookings (byId bid) depositRowUpdate } := by
      rw [hd, if_neg h']
    have hsecond := process_deposit_refund_api_eval (process_deposit_refund_api st bid).1 bid
      (depositRowUpdate b) (by rw [hstate]; exact hfind3)
    have hcond : (depositRowUpdate b).deposit_refund_status ≠ DRStatus.Pending := by
      intro hx
      exact DRStatus.noConfusion hx
    rw [hsecond, if_pos hcond]
    exact ⟨hstate, rfl, rfl⟩
  · intro h
    rw [hd, if_pos h]

/-- Witness for claim C8: on a Cancelled booking with both refund statuses
Pending, each operation succeeds once and the immediate repeat is rejected. -/
theorem refund_processing_spec_witness :
    bkC8.status = BStatus.Cancelled ∧ bkC8.refund_status ≠ RStatus.Processed ∧
    (process_refund_api stC8 1).2 = RefundResult.processed ∧
    (process_refund_api (process_refund_api stC8 1).1 1).2 = RefundResult.invalidState ∧
    (process_deposit_refund_api stC8 1).2 = RefundResult.processed ∧
    (process_deposit_refund_api (process_deposit_refund_api stC8 1).1 1).2 =
      RefundResult.invalidState := by
  have h := refund_processing_spec stC8 1 bkC8 rfl
  refine ⟨rfl, by decide, ?_, ?_, ?_, ?_⟩
  · exact h.1.mpr ⟨rfl, by decide⟩
  · exact (h.2.1 ⟨rfl, by decide⟩).2.1
  · exact h.2.2.2.1.mpr rfl
  · exact (h.2.2.2.2.1 rfl).2.1


/-- Every confirm attempt pops the session quote, whatever the outcome. -/
theorem confirm_booking_temp_quotes (st : AppState) (sid uid : Nat)
    (pid oid : Option String) (gw : List (String × PaymentRecord)) (now : ℤ) :
    (confirm_booking st sid uid pid oid gw now).1.temp_quotes = quotePop st.temp_quotes sid := by
  unfold confirm_booking
  dsimp only
  (repeat' split) <;> rfl

/-- A confirm attempt with no stored quote fails with the session-expired
error and only pops the (absent) key. -/
theorem confirm_booking_no_quote (st : AppState) (sid uid : Nat)
    (pid oid : Option String) (gw : List (String × PaymentRecord)) (now : ℤ)
    (h : quoteLookup st.temp_quotes sid = none) :
    confirm_booking st sid uid pid oid gw now =
      ({ st with temp_quotes := quotePop st.temp_quotes sid }, ConfirmResult.sessionExpired) := by
  unfold confirm_booking
  rw [h]

/-- Evaluation of a fully successful confirm attempt. -/
theorem confirm_booking_success_eval (st : AppState) (sid uid : Nat)
    (pid oid : String) (gw : List (String × PaymentRecord)) (now : ℤ)
    (td : TempBookingData) (pr : PaymentRecord) (v : Vehicle) (s e : ℤ)
    (hq : quoteLookup st.temp_quotes sid = some td)
    (hgw : (gw.find? (fun p => p.1 == pid)).map Prod.snd = some pr)
    (hoid : pr.order_id = oid)
    (hamt : pr.amount = td.expected_total * 100)
    (hstat : pr.status = "captured")
    (hveh : st.vehicles.find? (fun x => x.vehicle_id_code == td.vehicle_id_code) = some v)
    (hs : td.start_date = some s) (he : td.end_date = some e)
    (havail : is_vehicle_available st.bookings v.id (some s) (some e) = true)
    (hprice : ¬ 1 < |server_total_for v s e - td.expected_total|) :
    confirm_booking st sid uid (some pid) (some oid) gw now =
      ({ st with temp_quotes := quotePop st.temp_quotes sid,
                 bookings := confirmedBooking st uid v s e now pid :: st.bookings,
                 next_booking_id := st.next_booking_id + 1 },
       ConfirmResult.confirmed st.next_booking_id (server_total_for v s e)) := by
  unfold confirm_booking
  rw [hq]
  dsimp only
  rw [hgw]
  dsimp only
  rw [if_neg (fun hne => hne hoid)]
  rw [if_neg (by rintro (h | h) <;> [exact h hamt; exact h hstat])]
  rw [hveh]
  dsimp only
  rw [hs, he, havail]
  rw [if_neg (by simp)]
  dsimp only
  rw [show price_for_server v.base_price v.fuel (some s) (some e) +
        pyRound ((price_for_server v.base_price v.fuel (some s) (some e) : ℚ) * (18/100)) +
        calculate_deposit (price_for_server v.base_price v.fuel (some s) (some e))
          (((e - s : ℤ) : ℚ) / 3600) = server_total_for v s e from rfl]
  rw [if_neg hprice]
  rfl

/-- Evaluation of a successful quote phase. -/
theorem create_razorpay_order_success_eval (st : AppState) (sid uid : Nat)
    (code : String) (s e : ℤ) (v : Vehicle)
    (hveh : st.vehicles.find? (fun x => x.vehicle_id_code == code) = some v)
    (havail : is_vehicle_available st.bookings v.id (some s) (some e) = true) :
    create_razorpay_order st sid uid (some code) (some (some s)) (some (some e)) true =
      ({ st with temp_quotes := quoteSet st.temp_quotes sid (quotedTemp code v s e) },
       OrderResult.orderCreated (server_total_for v s e * 100)) := by
  unfold create_razorpay_order
  dsimp only
  rw [hveh]
  dsimp only
  rw [havail]
  rw [if_neg (by simp)]
  rfl

/-- Claim C10: every confirm attempt, successful or not, pops the session
quote before any check runs; a subsequent confirm for the same session
therefore fails with the session-expired error and adds no booking, so
recovery requires a fresh quote. -/
theorem confirm_attempt_consumes_quote (st : AppState) (sid uid : Nat)
    (pid oid : Option String) (gw : List (String × PaymentRecord)) (now : ℤ) :
    quoteLookup (confirm_booking st sid uid pid oid gw now).1.temp_quotes sid = none ∧
    ∀ (uid' : Nat) (pid' oid' : Option String) (gw' : List (String × PaymentRecord)) (now' : ℤ),
      (confirm_booking (confirm_booking st sid uid pid oid gw now).1 sid uid' pid' oid' gw' now').2 =
        ConfirmResult.sessionExpired ∧
      (confirm_booking (confirm_booking st sid uid pid oid gw now).1 sid uid' pid' oid' gw' now').1.bookings =
        (confirm_booking st sid uid pid oid gw now).1.bookings := by
  have h1 : quoteLookup (confirm_booking st sid uid pid oid gw now).1.temp_quotes sid = none := by
    rw [confirm_booking_temp_quotes]
    exact quoteLookup_quotePop st.temp_quotes sid
  refine ⟨h1, fun uid' pid' oid' gw' now' => ?_⟩
  rw [confirm_booking_no_quote _ sid uid' pid' oid' gw' now' h1]
  exact ⟨rfl, rfl⟩

/-- Claim C3: after a confirm call has consumed the session quote and created
a booking, a second confirm call for the same session fails with the
session-expired error and creates no second booking. -/
theorem quote_single_use (st : AppState) (sid uid : Nat) (pid oid : Option String)
    (gw : List (String × PaymentRecord)) (now : ℤ) (bid : Nat) (total : ℤ)
    (hok : (confirm_booking st sid uid pid oid gw now).2 = ConfirmResult.confirmed bid total) :
    ∀ (uid' : Nat) (pid' oid' : Option String) (gw' : List (String × PaymentRecord)) (now' : ℤ),
      (confirm_booking (confirm_booking st sid uid pid oid gw now).1 sid uid' pid' oid' gw' now').2 =
        ConfirmResult.sessionExpired ∧
      (confirm_booking (confirm_booking st sid uid pid oid gw now).1 sid uid' pid' oid' gw' now').1.bookings =
        (confirm_booking st sid uid pid oid gw now).1.bookings := by
  intro uid' pid' oid' gw' now'
  have h1 : quoteLookup (confirm_booking st sid uid pid oid gw now).1.temp_quotes sid = none := by
    rw [confirm_booking_temp_quotes]
    exact quoteLookup_quotePop st.temp_quotes sid
  rw [confirm_booking_no_quote _ sid uid' pid' oid' gw' now' h1]
  exact ⟨rfl, rfl⟩

/-- Concrete evaluation of the server total for the sample vehicle over a
3-hour rental: 300 subtotal + 54 GST + 500 deposit. -/
theorem total_vehP : server_total_for vehP 0 10800 = 854 := by
  have h1 : ("Petrol" : String) ≠ "Electric" := by decide
  have h2 : ("Petrol" : String) ≠ "Diesel" := by decide
  simp only [server_total_for, server_deposit_for, vehP, price_for_server]
  norm_num [pyRound, calculate_deposit, h1, h2]

/-- Witness for claim C3: a concrete successful confirmation, then the second
attempt for the same session fails and adds nothing. -/
theorem quote_single_use_witness :
    (confirm_booking stQ 5 3 (some "pay1") (some "ord1") gwQ 0).2 =
      ConfirmResult.confirmed 1 854 ∧
    (confirm_booking (confirm_booking stQ 5 3 (some "pay1") (some "ord1") gwQ 0).1 5 3
        (some "pay1") (some "ord1") gwQ 0).2 = ConfirmResult.sessionExpired ∧
    (confirm_booking (confirm_booking stQ 5 3 (some "pay1") (some "ord1") gwQ 0).1 5 3
        (some "pay1") (some "ord1") gwQ 0).1.bookings =
      (confirm_booking stQ 5 3 (some "pay1") (some "ord1") gwQ 0).1.bookings := by
  have hsucc := confirm_booking_success_eval stQ 5 3 "pay1" "ord1" gwQ 0 tdQ prQ vehP 0 10800
    rfl rfl rfl
    (by rw [show tdQ.expected_total = server_total_for vehP 0 10800 from rfl, total_vehP]; rfl)
    rfl rfl rfl rfl rfl
    (by rw [show tdQ.expected_total = server_total_for vehP 0 10800 from rfl]; simp)
  have hok : (confirm_booking stQ 5 3 (some "pay1") (some "ord1") gwQ 0).2 =
      ConfirmResult.confirmed 1 854 := by
    rw [hsucc]
    dsimp only
    rw [total_vehP]
    rfl
  have h2 := quote_single_use stQ 5 3 (some "pay1") (some "ord1") gwQ 0 1 854 hok
  exact ⟨hok, (h2 3 (some "pay1") (some "ord1") gwQ 0).1, (h2 3 (some "pay1") (some "ord1") gwQ 0).2⟩


/-- Concrete evaluation of the server total for the unavailable sample
vehicle over a 3-hour rental. -/
theorem total_vehU : server_total_for vehU 0 10800 = 854 := by
  have h1 : ("Petrol" : String) ≠ "Electric" := by decide
  have h2 : ("Petrol" : String) ≠ "Diesel" := by decide
  simp only [server_total_for, server_deposit_for, vehU, price_for_server]
  norm_num [pyRound, calculate_deposit, h1, h2]

/-- Claim C4 evaluation at the failing input: vehicle "VU9" is flagged
unavailable, yet the quote phase creates a payment order for it and the
confirm phase then persists a Confirmed booking on it — neither phase
consults is_available (is_vehicle_available checks only overlapping
Confirmed bookings). -/
theorem unavailable_vehicle_gets_booked :
    vehU.is_available = false ∧
    (create_razorpay_order stU 5 3 (some "VU9") (some (some 0)) (some (some 10800)) true).2 =
      OrderResult.orderCreated 85400 ∧
    (confirm_booking stU2 5 3 (some "payU") (some "ordU") gwU 0).2 =
      ConfirmResult.confirmed 1 854 ∧
    ∃ b ∈ (confirm_booking stU2 5 3 (some "payU") (some "ordU") gwU 0).1.bookings,
      b.vehicle_id = vehU.id ∧ b.status = BStatus.Confirmed := by
  have hcr := create_razorpay_order_success_eval stU 5 3 "VU9" 0 10800 vehU rfl rfl
  have hst2 : stU2 =
      { stU with temp_quotes := quoteSet stU.temp_quotes 5 (quotedTemp "VU9" vehU 0 10800) } := by
    unfold stU2
    rw [hcr]
  have hconf := confirm_booking_success_eval stU2 5 3 "payU" "ordU" gwU 0
    (quotedTemp "VU9" vehU 0 10800) prU vehU 0 10800
    (by rw [hst2]; rfl) rfl rfl
    (by rw [show (quotedTemp "VU9" vehU 0 10800).expected_total =
          server_total_for vehU 0 10800 from rfl, total_vehU]; rfl)
    rfl (by rw [hst2]; rfl) rfl rfl (by rw [hst2]; rfl)
    (by rw [show (quotedTemp "VU9" vehU 0 10800).expected_total =
          server_total_for vehU 0 10800 from rfl]; simp)
  refine ⟨rfl, ?_, ?_, ?_⟩
  · rw [hcr]
    dsimp only
    rw [total_vehU]
    norm_num
  · rw [hconf]
    dsimp only
    rw [total_vehU]
    rw [show stU2.next_booking_id = 1 from by rw [hst2]; rfl]
  · rw [hconf]
    exact ⟨confirmedBooking stU2 3 vehU 0 10800 0 "payU", List.mem_cons_self _ _, rfl, rfl⟩


/-- Claim C6 as amended: for a host on tier t ∈ {70, 80}, in the earnings
calculator (`host_earnings_view`) every row reports host_share =
round((total_price − deposit_amount) · t/100) and platform_commission =
(total_price − deposit_amount) − host_share — the deposit is subtracted from
the commissionable base before any split — and that page's lifetime-earnings
figure is the sum of host_share over the host's Confirmed bookings' rows;
the admin profile page (`view_user_profile`), however, reports
round(Σ (total_price − deposit_amount) · 0.80), a hard-coded 80% share
applied regardless of the tier t and rounded once over the sum. -/
theorem host_earnings_spec (st : AppState) (uid : Nat) (u : User) (t : ℤ)
    (hu : st.users.find? (fun x => x.id == uid) = some u)
    (ht : u.commission_tier = t) (htier : t = 70 ∨ t = 80)
    (hrole : u.role = "host") :
    (∀ row ∈ host_earnings_rows st uid,
      row.host_earning =
        pyRound (((row.total_booked_price - row.deposit_amount : ℤ) : ℚ) * t / 100) ∧
      row.platform_commission =
        (row.total_booked_price - row.deposit_amount) - row.host_earning) ∧
    total_lifetime_earnings st uid =
      ((host_earnings_rows st uid).map EarningsRow.host_earning).sum ∧
    view_user_profile_host_earnings st uid =
      pyRound (((hostConfirmedBookings st uid).map
        (fun b => ((b.total_price - b.deposit_amount : ℤ) : ℚ) * (80/100))).sum) := by
  have hrate : payout_rate_of (st.users.find? (fun x => x.id == uid)) = (t : ℚ) / 100 := by
    rw [hu]
    unfold payout_rate_of
    have hnz : u.commission_tier ≠ 0 := by
      rw [ht]
      rcases htier with h | h <;> rw [h] <;> decide
    dsimp only
    rw [if_pos hnz, ht]
  constructor
  · intro row hrow
    unfold host_earnings_rows at hrow
    rw [hrate] at hrow
    rcases List.mem_map.mp hrow with ⟨b, hb, hfb⟩
    subst hfb
    refine ⟨?_, ?_⟩
    · dsimp only
      rw [mul_div_assoc]
    · dsimp only
      rw [show ((b.total_price - b.deposit_amount : ℤ) : ℚ) -
            ((pyRound ((b.total_price - b.deposit_amount : ℤ) * ((t : ℚ) / 100))) : ℚ) =
            (((b.total_price - b.deposit_amount) -
              pyRound ((b.total_price - b.deposit_amount : ℤ) * ((t : ℚ) / 100)) : ℤ) : ℚ) from by
        push_cast
        ring]
      rw [pyRound_intCast]
  constructor
  · unfold total_lifetime_earnings
    exact pyRound_intCast _
  · unfold view_user_profile_host_earnings
    rw [hu]
    dsimp only
    rw [if_pos hrole]


/-- Evaluation of a successful first review for a vehicle with no prior
reviews: the inserted review is the singleton review set, so the recomputed
vehicle rating is round(r, 1). -/
theorem submit_review_first_eval (st : AppState) (uid : Nat) (now : ℤ)
    (bid : Nat) (r : ℚ) (c : String) (b : Booking) (v : Vehicle)
    (hbid : bid ≠ 0) (hr : r ≠ 0)
    (hfindb : st.bookings.find? (fun x => x.id == bid && x.user_id == uid) = some b)
    (helig : is_booking_reviewable st.reviews now b = true)
    (hfindv : st.vehicles.find? (fun x => x.id == b.vehicle_id) = some v)
    (hempty : st.reviews.filter (fun rv => rv.vehicle_id == v.id) = []) :
    (submit_review st uid now (some bid) (some r) c).2 = ReviewResult.submitted ∧
    (submit_review st uid now (some bid) (some r) c).1.vehicles =
      updateFirst st.vehicles (fun x => x.id == v.id)
        (fun x => { x with rating := pyRound1 r }) := by
  have hvb : v.id = b.vehicle_id := by
    simpa using List.find?_some hfindv
  unfold submit_review
  dsimp only
  rw [if_neg (by rintro (h | h); exacts [hbid h, hr h])]
  rw [hfindb]
  dsimp only
  rw [helig]
  rw [if_neg (by simp)]
  rw [hfindv]
  dsimp only
  have hfilter : ∀ rv : Review, rv.vehicle_id = b.vehicle_id →
      (rv :: st.reviews).filter (fun x => x.vehicle_id == v.id) = [rv] := by
    intro rv hrv
    rw [List.filter_cons, if_pos (by simp [hvb, hrv]), hempty]
  rw [hfilter _ rfl]
  norm_num

/-- Claim C9 counterexample: submitting rating 4.25 for a vehicle with no
prior reviews stores 4.2 (Python round(mean, 1) with banker's rounding), not
4.25, so the stored rating is not always exactly the submitted value. -/
theorem first_review_rating_counterexample :
    ((submit_review stC5 3 20000 (some 1) (some (17/4)) "ok").1.vehicles.find?
        (fun x => x.id == vehP.id)).map Vehicle.rating = some (21/5) ∧
    (21/5 : ℚ) ≠ 17/4 ∧
    (submit_review stC5 3 20000 (some 1) (some (17/4)) "ok").2 = ReviewResult.submitted := by
  have h := submit_review_first_eval stC5 3 20000 1 (17/4) "ok" bkC5 vehP
    (by decide) (by norm_num) rfl rfl rfl rfl
  refine ⟨?_, by norm_num, h.1⟩
  rw [h.2, find?_updateFirst stC5.vehicles (fun x => x.id == vehP.id)
    (fun x => { x with rating := pyRound1 (17/4) }) (fun x => rfl)]
  rw [show stC5.vehicles.find? (fun x => x.id == vehP.id) = some vehP from rfl]
  show some (pyRound1 (17/4)) = some (21/5)
  norm_num [pyRound1, pyRound]

/-- Claim C9 as amended: for a vehicle with no prior reviews and an eligible
booking, submitting any rating r stores Python's round(r, 1) — the
one-element mean rounded to one decimal — and that stored value equals the
submitted r exactly whenever r is a multiple of one tenth (in particular for
whole-number ratings). -/
theorem first_review_rating_amended (st : AppState) (uid : Nat) (now : ℤ)
    (bid : Nat) (r : ℚ) (c : String) (b : Booking) (v : Vehicle)
    (hbid : bid ≠ 0) (hr : r ≠ 0)
    (hfindb : st.bookings.find? (fun x => x.id == bid && x.user_id == uid) = some b)
    (helig : is_booking_reviewable st.reviews now b = true)
    (hfindv : st.vehicles.find? (fun x => x.id == b.vehicle_id) = some v)
    (hempty : st.reviews.filter (fun rv => rv.vehicle_id == v.id) = []) :
    ((submit_review st uid now (some bid) (some r) c).1.vehicles.find?
        (fun x => x.id == v.id)).map Vehicle.rating = some (pyRound1 r) ∧
    (submit_review st uid now (some bid) (some r) c).2 = ReviewResult.submitted ∧
    (∀ k : ℤ, r = (k : ℚ) / 10 → pyRound1 r = r) := by
  have h := submit_review_first_eval st uid now bid r c b v hbid hr hfindb helig hfindv hempty
  have hvb : v.id = b.vehicle_id := by
    simpa using List.find?_some hfindv
  have hfindv' : st.vehicles.find? (fun x => x.id == v.id) = some v := by
    simp only [hvb]
    exact hfindv
  refine ⟨?_, h.1, ?_⟩
  · rw [h.2, find?_updateFirst st.vehicles (fun x => x.id == v.id)
      (fun x => { x with rating := pyRound1 r }) (fun x => rfl), hfindv']
    rfl
  · intro k hk
    rw [hk]
    unfold pyRound1
    rw [div_mul_cancel₀ _ (by norm_num : (10 : ℚ) ≠ 0), pyRound_intCast]

/-- Witness for the amended claim C9: a whole-number rating 5 on a vehicle
with no prior reviews is stored as round(5, 1), which is exactly 5. -/
theorem first_review_rating_amended_witness :
    ((submit_review stC5 3 20000 (some 1) (some 5) "good").1.vehicles.find?
        (fun x => x.id == vehP.id)).map Vehicle.rating = some 5 ∧
    (submit_review stC5 3 20000 (some 1) (some 5) "good").2 = ReviewResult.submitted := by
  have h := first_review_rating_amended stC5 3 20000 1 5 "good" bkC5 vehP
    (by decide) (by norm_num) rfl rfl rfl rfl
  have h5 : pyRound1 (5 : ℚ) = 5 := h.2.2 50 (by norm_num)
  refine ⟨?_, h.2.1⟩
  rw [h.1, h5]

/-- Witness for claim C6 at a concrete state: tier-70 host, one Confirmed
booking with total 1000 and deposit 500, so base 500, host share 350,
platform commission 150 on the earnings page, while the admin profile page
shows the hard-coded-80% figure 400. -/
theorem host_earnings_spec_witness :
    hostH.commission_tier = 70 ∧ hostH.role = "host" ∧
    (host_earnings_rows stC6 2).map EarningsRow.host_earning = [350] ∧
    (host_earnings_rows stC6 2).map EarningsRow.platform_commission = [150] ∧
    total_lifetime_earnings stC6 2 =
      ((host_earnings_rows stC6 2).map EarningsRow.host_earning).sum ∧
    view_user_profile_host_earnings stC6 2 = 400 := by
  have h := host_earnings_spec stC6 2 hostH 70 rfl rfl (Or.inl rfl) rfl
  refine ⟨rfl, rfl, ?_, ?_, h.2.1, ?_⟩
  · show [pyRound (((bkC5.total_price - bkC5.deposit_amount : ℤ) : ℚ) *
        ((hostH.commission_tier : ℚ) / 100))] = [350]
    norm_num [bkC5, hostH, pyRound]
  · show [pyRound ((((bkC5.total_price - bkC5.deposit_amount : ℤ)) : ℚ) -
        (pyRound (((bkC5.total_price - bkC5.deposit_amount : ℤ) : ℚ) *
          ((hostH.commission_tier : ℚ) / 100)) : ℚ))] = [150]
    norm_num [bkC5, hostH, pyRound]
  · rw [h.2.2]
    show pyRound ([((bkC5.total_price - bkC5.deposit_amount : ℤ) : ℚ) * (80/100)].sum) = 400
    norm_num [bkC5, pyRound]

/-- Claim C6 counterexample: for the tier-70 host above, the admin profile
page reports lifetime earnings 400 = round(500 · 0.80) — a hard-coded 80%
share — while the sum of round(base · 70/100) host shares over the host's
Confirmed bookings is 350, so the claimed tier-based host share and
lifetime-earnings sum do not hold on the cited view_user_profile path. -/
theorem host_earnings_profile_counterexample :
    hostH.commission_tier = 70 ∧
    view_user_profile_host_earnings stC6 2 = 400 ∧
    ((host_earnings_rows stC6 2).map EarningsRow.host_earning).sum = 350 ∧
    view_user_profile_host_earnings stC6 2 ≠
      ((host_earnings_rows stC6 2).map EarningsRow.host_earning).sum := by
  have h400 : view_user_profile_host_earnings stC6 2 = 400 := by
    show pyRound (if hostH.role = "host" then
        ((hostConfirmedBookings stC6 2).map
          (fun b => ((b.total_price - b.deposit_amount : ℤ) : ℚ) * (80/100))).sum
      else 0) = 400
    rw [if_pos (show hostH.role = "host" from rfl)]
    show pyRound ([((bkC5.total_price - bkC5.deposit_amount : ℤ) : ℚ) * (80/100)].sum) = 400
    norm_num [bkC5, pyRound]
  have h350 : ((host_earnings_rows stC6 2).map EarningsRow.host_earning).sum = 350 := by
    show [pyRound (((bkC5.total_price - bkC5.deposit_amount : ℤ) : ℚ) *
        ((hostH.commission_tier : ℚ) / 100))].sum = 350
    norm_num [bkC5, hostH, pyRound]
  refine ⟨rfl, h400, h350, ?_⟩
  rw [h400, h350]
  decide

end PrimeDrew
